import Mathlib

set_option autoImplicit false

namespace McpCore

/-! Shallow embedding of the MCP protocol core of this repository:
the server-side dispatcher and session machine (`mcp_server/server.py`,
`mcp_server/services/mcp_server.py`), the tool registry
(`mcp_server/tools/users/...`), and the hand-rolled client codec
(`agent/clients/custom_mcp_client.py`). -/

mutual
/-- JSON-like values: the embedding of the Python/JSON data flowing through
the server and client (dicts, lists, strings, ints, bools, None). Numbers
are modelled as integers; the payloads of this repository carry no
fractional numbers. -/
inductive JValue where
  | jnull
  | jbool (b : Bool)
  | jnum (n : Int)
  | jstr (s : String)
  | jarr (elems : JList)
  | jobj (fields : JFields)
  deriving DecidableEq
/-- A JSON array body (a list of `JValue`, spelled out so that all recursion
over the JSON type is structural). -/
inductive JList where
  | jnil
  | jcons (head : JValue) (tail : JList)
  deriving DecidableEq
/-- A JSON object body: an association list of string keys and values. -/
inductive JFields where
  | fnil
  | fcons (key : String) (val : JValue) (tail : JFields)
  deriving DecidableEq
end

/-- Object-field lookup, the embedding of `dict.get(key)` on a string-keyed
Python dict (dict keys are unique, so first-match agrees with dict
semantics). -/
def JFields.lookup : JFields → String → Option JValue
  | .fnil, _ => none
  | .fcons k v rest, key => if k = key then some v else rest.lookup key

/-- Whether an object body is empty (Python `not d` on a dict). -/
def JFields.isEmpty : JFields → Bool
  | .fnil => true
  | .fcons _ _ _ => false

/-- Whether an array body is empty (Python `not l` on a list). -/
def JList.isEmpty : JList → Bool
  | .jnil => true
  | .jcons _ _ => false

/-- Python truthiness (`if x:`) for the embedded values: None, False, 0, "",
empty list and empty dict are falsy, everything else is truthy. -/
def JValue.isTruthy : JValue → Bool
  | .jnull => false
  | .jbool b => b
  | .jnum n => n != 0
  | .jstr s => s != ""
  | .jarr xs => !xs.isEmpty
  | .jobj fs => !fs.isEmpty

/-- Embedding of `x.get(key)` on a value that may or may not be a dict: on a
non-dict it returns `none` (call sites that would raise in Python are
modelled explicitly where it matters). -/
def JValue.get : JValue → String → Option JValue
  | .jobj fs, key => fs.lookup key
  | _, _ => none

/-- First-match association-list lookup for the server-side string-keyed
dicts (`self.sessions`, `self.tools`); dict keys are unique, so first-match
agrees with Python dict semantics. -/
def lookupA {α : Type} : List (String × α) → String → Option α
  | [], _ => none
  | (k, v) :: rest, key => if k = key then some v else lookupA rest key

/-- Replace the value bound to `key` (first binding): the embedding of
in-place mutation of the object stored under `key`, and of `d[key] = v`
when `key` is already present. -/
def updateAssoc {α : Type} : List (String × α) → String → α → List (String × α)
  | [], _, _ => []
  | (k, x) :: rest, key, v =>
      if k = key then (k, v) :: rest else (k, x) :: updateAssoc rest key v

/-- Python `d[key] = v`: overwrite when the key is present, append when
absent. -/
def insertAssoc {α : Type} (m : List (String × α)) (key : String) (v : α) :
    List (String × α) :=
  if (lookupA m key).isSome then updateAssoc m key v else m ++ [(key, v)]

/-- Modelled from the spec: the JSON-RPC error object of the response model
(`mcp_server/models/response.py` is not under `src/`): an integer `code`
and a `message` string. -/
structure ErrorResponse where
  code : Int
  message : String
  deriving DecidableEq

/-- Modelled from the spec: the JSON-RPC request envelope of
`mcp_server/models/request.py` (not under `src/`): a correlation id
(absent on notifications), a method name, and optional keyed parameters. -/
structure MCPRequest where
  id : Option String
  method : String
  params : Option JFields
  deriving DecidableEq

/-- Modelled from the spec: the JSON-RPC response envelope of
`mcp_server/models/response.py` (not under `src/`): the correlation id plus
a result payload and/or an error object (the code constructs exactly one of
the two). -/
structure MCPResponse where
  id : Option String
  result : Option JValue
  error : Option ErrorResponse
  deriving DecidableEq

/-- An MCP session (`MCPSession` in `mcp_server/services/mcp_server.py`):
id, readiness flag, creation time and last-activity time. The event-loop
clock is modelled as a `Nat` passed in explicitly wherever the code reads
`asyncio.get_event_loop().time()`. -/
structure MCPSession where
  session_id : String
  ready_for_operation : Bool
  created_at : Nat
  last_activity : Nat
  deriving DecidableEq

/-- Modelled from the spec: the opaque `UserClient` backend capability
(`mcp_server/tools/users/user_client.py` is not under `src/`); every method
returns text or fails with a backend-specific error, modelled as
`Except String String`. Argument validation done by the missing pydantic
models (`UserCreate`, `UserUpdate`) is folded into the corresponding
capability. -/
structure UserClient where
  get_user : Int → Except String String
  search_users : JFields → Except String String
  add_user : JValue → Except String String
  update_user : JValue → JValue → Except String String
  delete_user : Int → Except String String

/-- A registered tool (`BaseUserServiceTool` subclasses): name, description,
input schema, and the execute capability; a raised Python exception is the
`Except.error` case carrying the exception text. -/
structure Tool where
  name : String
  description : String
  input_schema : JValue
  execute : JValue → Except String String

/-- Python whitespace for `str.strip()` (the ASCII whitespace characters;
the payloads of this protocol contain no exotic unicode spaces). -/
def isPySpace (c : Char) : Bool :=
  c = ' ' || c = '\t' || c = '\n' || c = '\x0d' || c = '\x0b' || c = '\x0c'

/-- Python `str.strip()`: drop leading and trailing whitespace. -/
def pyStrip (s : String) : String :=
  String.mk (((s.data.dropWhile isPySpace).reverse.dropWhile isPySpace).reverse)

/-- Parse a non-empty run of decimal digits into a natural number. -/
def parseDigits (cs : List Char) : Option (Nat × List Char) :=
  let ds := cs.takeWhile Char.isDigit
  if ds.isEmpty then none
  else some (ds.foldl (fun n c => n * 10 + (c.toNat - 48)) 0, cs.drop ds.length)

/-- Integer parsing for Python `int(str)`: optional sign, digits, nothing
else (after stripping surrounding whitespace). -/
def pyStrToInt (s : String) : Option Int :=
  match (pyStrip s).data with
  | '-' :: rest =>
      (match parseDigits rest with
       | some (n, []) => some (-(n : Int))
       | _ => none)
  | '+' :: rest =>
      (match parseDigits rest with
       | some (n, []) => some ((n : Int))
       | _ => none)
  | cs =>
      match parseDigits cs with
      | some (n, []) => some ((n : Int))
      | _ => none

/-- Python `int(x)`: succeeds on ints and bools, on integer-shaped strings,
and fails (raises) otherwise. -/
def pyInt : JValue → Except String Int
  | .jnum n => .ok n
  | .jbool b => .ok (if b then 1 else 0)
  | .jstr s =>
      match pyStrToInt s with
      | some n => .ok n
      | none => .error ("invalid literal for int() with base 10: " ++ s)
  | _ => .error "int() argument must be a string or a number"

/-- `GetUserByIdTool.execute`: `int(arguments["id"])` (a missing key or a
non-integer value raises) then `user_client.get_user`. -/
def getUserByIdExecute (uc : UserClient) (args : JValue) : Except String String :=
  match args.get "id" with
  | none => .error "KeyError: id"
  | some v =>
      match pyInt v with
      | .error e => .error e
      | .ok n => uc.get_user n

/-- `SearchUsersTool.execute`: `user_client.search_users(**arguments)`;
splatting a non-dict raises. -/
def searchUsersExecute (uc : UserClient) (args : JValue) : Except String String :=
  match args with
  | .jobj fs => uc.search_users fs
  | _ => .error "TypeError: arguments must be a mapping"

/-- `CreateUserTool.execute`: `UserCreate.model_validate(arguments)` then
`user_client.add_user` (validation failure is folded into the capability's
error case). -/
def createUserExecute (uc : UserClient) (args : JValue) : Except String String :=
  uc.add_user args

/-- `UpdateUserTool.execute`: `arguments["id"]` and
`UserUpdate.model_validate(arguments["new_info"])` (missing keys raise) then
`user_client.update_user`. -/
def updateUserExecute (uc : UserClient) (args : JValue) : Except String String :=
  match args.get "id", args.get "new_info" with
  | some i, some ni => uc.update_user i ni
  | none, _ => .error "KeyError: id"
  | _, none => .error "KeyError: new_info"

/-- `DeleteUserTool.execute`: `int(arguments["id"])` then
`user_client.delete_user`. -/
def deleteUserExecute (uc : UserClient) (args : JValue) : Except String String :=
  match args.get "id" with
  | none => .error "KeyError: id"
  | some v =>
      match pyInt v with
      | .error e => .error e
      | .ok n => uc.delete_user n

/-- Input schema of `GetUserByIdTool` (transcribed from the source). -/
def getUserByIdSchema : JValue :=
  .jobj (.fcons "type" (.jstr "object")
    (.fcons "properties" (.jobj (.fcons "id" (.jobj (.fcons "type" (.jstr "number")
      (.fcons "description" (.jstr "User ID") .fnil))) .fnil))
    (.fcons "required" (.jarr (.jcons (.jstr "id") .jnil)) .fnil)))

/-- Input schema of `SearchUsersTool` (transcribed from the source). -/
def searchUsersSchema : JValue :=
  .jobj (.fcons "type" (.jstr "object")
    (.fcons "properties" (.jobj
      (.fcons "name" (.jobj (.fcons "type" (.jstr "string")
        (.fcons "description" (.jstr "User name") .fnil)))
      (.fcons "surname" (.jobj (.fcons "type" (.jstr "string")
        (.fcons "description" (.jstr "User surname") .fnil)))
      (.fcons "email" (.jobj (.fcons "type" (.jstr "string")
        (.fcons "description" (.jstr "User email") .fnil)))
      (.fcons "gender" (.jobj (.fcons "type" (.jstr "string")
        (.fcons "description" (.jstr "User gender")
        (.fcons "enum" (.jarr (.jcons (.jstr "male") (.jcons (.jstr "female") .jnil))) .fnil))))
      .fnil)))))
    (.fcons "required" (.jarr .jnil) .fnil)))

/-- Modelled from the spec: `UserCreate.model_json_schema()`
(`mcp_server/models/user_info.py` is not under `src/`); an opaque
machine-checkable object schema. -/
def userCreateSchema : JValue :=
  .jobj (.fcons "type" (.jstr "object") .fnil)

/-- Modelled from the spec: `UserUpdate.model_json_schema()`
(`mcp_server/models/user_info.py` is not under `src/`). -/
def userUpdateSchema : JValue :=
  .jobj (.fcons "type" (.jstr "object") .fnil)

/-- Input schema of `UpdateUserTool` (outer shape transcribed from the
source; the nested `new_info` schema comes from the missing pydantic
model). -/
def updateUserSchema : JValue :=
  .jobj (.fcons "type" (.jstr "object")
    (.fcons "properties" (.jobj
      (.fcons "id" (.jobj (.fcons "type" (.jstr "number")
        (.fcons "description" (.jstr "User ID that should be updated.") .fnil)))
      (.fcons "new_info" userUpdateSchema .fnil)))
    (.fcons "required" (.jarr (.jcons (.jstr "id") .jnil)) .fnil)))

/-- Input schema of `DeleteUserTool` (transcribed from the source). -/
def deleteUserSchema : JValue :=
  .jobj (.fcons "type" (.jstr "object")
    (.fcons "properties" (.jobj (.fcons "id" (.jobj (.fcons "type" (.jstr "number")
      (.fcons "description" (.jstr "User ID") .fnil))) .fnil))
    (.fcons "required" (.jarr (.jcons (.jstr "id") .jnil)) .fnil)))

/-- `MCPServer._register_tools`: the fixed registry keyed by tool name, in
registration order. -/
def register_tools (uc : UserClient) : List (String × Tool) :=
  [ ("get_user_by_id",
      { name := "get_user_by_id",
        description := "Provides full user information by user_id",
        input_schema := getUserByIdSchema,
        execute := getUserByIdExecute uc }),
    ("search_users",
      { name := "search_users",
        description := "Searches users by name, surname, email, and gender",
        input_schema := searchUsersSchema,
        execute := searchUsersExecute uc }),
    ("add_user",
      { name := "add_user",
        description := "Adds new user into the system",
        input_schema := userCreateSchema,
        execute := createUserExecute uc }),
    ("update_user",
      { name := "update_user",
        description := "Updates user info",
        input_schema := updateUserSchema,
        execute := updateUserExecute uc }),
    ("delete_user",
      { name := "delete_user",
        description := "Deletes user by user_id",
        input_schema := deleteUserSchema,
        execute := deleteUserExecute uc }) ]

/-- The `MCPServer` service state: the session store, the tool registry and
the fresh-id supply. `uuid.uuid4` is a randomness source outside the
program; it is modelled as a deterministic injective supply indexed by a
counter (see `mintSessionId`). -/
structure MCPServer where
  sessions : List (String × MCPSession)
  tools : List (String × Tool)
  uuid_counter : Nat

/-- `MCPServer.__init__`: empty session store, registered tools, fresh
supply. -/
def MCPServer.init (uc : UserClient) : MCPServer :=
  { sessions := [], tools := register_tools uc, uuid_counter := 0 }

/-- The server's fixed protocol version string. -/
def protocolVersion : String := "2024-11-05"

/-- The server identity object (`self.server_info`). -/
def serverInfo : JValue :=
  .jobj (.fcons "name" (.jstr "custom-ums-mcp-server")
    (.fcons "version" (.jstr "1.0.0") .fnil))

/-- Modelled from the spec: `str(uuid.uuid4()).replace("-", "")` draws from
a UUID-grade generator assumed collision-free; the randomness source is
embedded as a deterministic injective supply indexed by the server's draw
counter, producing a non-empty dash-free string. -/
def mintSessionId (n : Nat) : String :=
  String.mk (List.replicate (n + 1) 'a')

/-- Touching a session's last-activity timestamp. -/
def touchSession (now : Nat) (s : MCPSession) : MCPSession :=
  { s with last_activity := now }

/-- `MCPServer.get_session`: look the id up; on a hit, update the session's
`last_activity` in place and return it; on a miss return `None`. The store
mutation is modelled by returning the updated server alongside. -/
def MCPServer.get_session (srv : MCPServer) (session_id : String) (now : Nat) :
    Option MCPSession × MCPServer :=
  match lookupA srv.sessions session_id with
  | none => (none, srv)
  | some s =>
      let s2 := touchSession now s
      (some s2, { srv with sessions := updateAssoc srv.sessions session_id s2 })

/-- `MCPServer.handle_initialize`: mint a fresh session id, insert a
not-yet-ready session stamped with the current time, and answer with the
negotiated version, capabilities and server identity under the request's
correlation id. Returns (response, new session id, updated server). -/
def MCPServer.handle_initialize (srv : MCPServer) (now : Nat) (req : MCPRequest) :
    MCPResponse × String × MCPServer :=
  let sid := mintSessionId srv.uuid_counter
  let sess : MCPSession :=
    { session_id := sid, ready_for_operation := false,
      created_at := now, last_activity := now }
  let srv2 : MCPServer :=
    { srv with sessions := insertAssoc srv.sessions sid sess,
               uuid_counter := srv.uuid_counter + 1 }
  let pv : JValue :=
    match req.params with
    | some ps => if ps.isEmpty then .jstr protocolVersion
                 else (ps.lookup "protocolVersion").getD .jnull
    | none => .jstr protocolVersion
  (⟨req.id,
    some (.jobj (.fcons "protocolVersion" pv
      (.fcons "capabilities" (.jobj (.fcons "tools"
          (.jobj (.fcons "listChanged" (.jbool true) .fnil))
        (.fcons "resources" .jnull (.fcons "prompts" .jnull .fnil))))
      (.fcons "serverInfo" serverInfo .fnil)))),
    none⟩, sid, srv2)

/-- `BaseUserServiceTool.to_mcp_tool` (base class not under `src/`; shape
modelled from the spec's descriptor tuples and the client's consumption):
name, description and input schema. -/
def toMcpTool (t : Tool) : JValue :=
  .jobj (.fcons "name" (.jstr t.name)
    (.fcons "description" (.jstr t.description)
    (.fcons "inputSchema" t.input_schema .fnil)))

/-- Fold a list of values into a `JList`. -/
def jlistOf : List JValue → JList
  | [] => .jnil
  | x :: xs => .jcons x (jlistOf xs)

/-- `MCPServer.handle_tools_list`: the full catalog under the request's
correlation id. -/
def MCPServer.handle_tools_list (srv : MCPServer) (req : MCPRequest) : MCPResponse :=
  ⟨req.id,
   some (.jobj (.fcons "tools" (.jarr (jlistOf (srv.tools.map (fun p => toMcpTool p.2)))) .fnil)),
   none⟩

/-- Rendering of a Python value inside an f-string (`f"Tool '{tool_name}'
not found"`); only the string case is reached by a well-formed request. -/
def pyRender : JValue → String
  | .jstr s => s
  | .jnum n => toString n
  | .jbool b => if b then "True" else "False"
  | .jnull => "None"
  | .jarr _ => "[...]"
  | .jobj _ => "\x7b...\x7d"

/-- The successful tools/call result: a single text content item. -/
def toolOkResult (text : String) : JValue :=
  .jobj (.fcons "content" (.jarr (.jcons (.jobj (.fcons "type" (.jstr "text")
    (.fcons "text" (.jstr text) .fnil))) .jnil)) .fnil)

/-- The caught-exception tools/call result: a single text content item
holding the failure message, plus the `isError: true` marker. -/
def toolErrResult (text : String) : JValue :=
  .jobj (.fcons "content" (.jarr (.jcons (.jobj (.fcons "type" (.jstr "text")
    (.fcons "text" (.jstr text) .fnil))) .jnil))
    (.fcons "isError" (.jbool true) .fnil))

/-- `MCPServer.handle_tools_call`, instrumented with a trace of which
registered tool's execute capability was invoked (`none` when no execute
runs). The outer `Except` is an uncaught Python exception escaping the
handler: the only such path is a truthy unhashable `params.name` (a list or
dict), whose `in self.tools` membership test raises `TypeError`. Falsy
parameters and a falsy name are rejected exactly as the code's truthiness
tests do. -/
def MCPServer.handle_tools_call_traced (srv : MCPServer) (req : MCPRequest) :
    Except String (MCPResponse × Option String) :=
  match req.params with
  | none => .ok (⟨req.id, none, some ⟨-32602, "Missing parameters"⟩⟩, none)
  | some ps =>
    if ps.isEmpty then
      .ok (⟨req.id, none, some ⟨-32602, "Missing parameters"⟩⟩, none)
    else
      let arguments := (ps.lookup "arguments").getD (.jobj .fnil)
      match ps.lookup "name" with
      | none => .ok (⟨req.id, none, some ⟨-32602, "Missing required parameter: name"⟩⟩, none)
      | some tn =>
        if !tn.isTruthy then
          .ok (⟨req.id, none, some ⟨-32602, "Missing required parameter: name"⟩⟩, none)
        else
          match tn with
          | .jarr _ => .error "TypeError: unhashable type: list"
          | .jobj _ => .error "TypeError: unhashable type: dict"
          | .jstr s =>
            (match lookupA srv.tools s with
             | none => .ok (⟨req.id, none, some ⟨-32601, "Tool '" ++ s ++ "' not found"⟩⟩, none)
             | some tool =>
               match tool.execute arguments with
               | .ok text => .ok (⟨req.id, some (toolOkResult text), none⟩, some s)
               | .error e =>
                   .ok (⟨req.id, some (toolErrResult ("Tool execution error: " ++ e)), none⟩, some s))
          | other =>
            .ok (⟨req.id, none, some ⟨-32601, "Tool '" ++ pyRender other ++ "' not found"⟩⟩, none)

/-- `MCPServer.handle_tools_call` as the dispatcher sees it (the trace
dropped). -/
def MCPServer.handle_tools_call (srv : MCPServer) (req : MCPRequest) :
    Except String MCPResponse :=
  (srv.handle_tools_call_traced req).map Prod.fst

/-- Python `str.lower()` (ASCII case folding). -/
def pyLower (s : String) : String :=
  String.mk (s.data.map Char.toLower)

/-- Substring search over character lists. -/
def hasInfixChars : List Char → List Char → Bool
  | [], needle => needle.isEmpty
  | c :: t, needle => needle.isPrefixOf (c :: t) || hasInfixChars t needle

/-- Python `needle in hay` on strings: substring containment. -/
def containsSub (hay needle : String) : Bool :=
  hasInfixChars hay.data needle.data

/-- Python `s.startswith(p)`. -/
def startsWithStr (s p : String) : Bool :=
  p.data.isPrefixOf s.data

/-- Python `s[n:]`: drop the first `n` characters. -/
def strDrop (s : String) (n : Nat) : String :=
  String.mk (s.data.drop n)

/-- Split a character list on a separator character (Python
`str.split(sep)`: the empty string yields one empty piece). -/
def splitOnCharAux (sep : Char) : List Char → List Char → List String
  | [], acc => [String.mk acc.reverse]
  | c :: rest, acc =>
      if c = sep then String.mk acc.reverse :: splitOnCharAux sep rest []
      else splitOnCharAux sep rest (c :: acc)

/-- Python `s.split(sep)` for a one-character separator. -/
def pySplit (s : String) (sep : Char) : List String :=
  splitOnCharAux sep s.data []

/-- `_validate_accept_header` (`mcp_server/server.py`): the header must be
present and, split on commas with each piece stripped and lowercased, some
piece must contain `application/json` and some piece must contain
`text/event-stream`. -/
def validate_accept_header : Option String → Bool
  | none => false
  | some h =>
    if h = "" then false
    else
      let ts := (pySplit h ',').map (fun t => pyLower (pyStrip t))
      ts.any (fun t => containsSub t "application/json") &&
        ts.any (fun t => containsSub t "text/event-stream")

/-- The transport-level outcome of one `POST /mcp`: a non-200 JSON-body
rejection, a non-200 plain-text rejection, the bodiless 202
acknowledgement, the streamed JSON-RPC response (with the echoed session-id
header), or an uncaught exception escaping the handler. -/
inductive HttpOutcome where
  | jsonReject (status : Nat) (body : MCPResponse)
  | textReject (status : Nat) (body : String)
  | accepted (session_header : String)
  | sseStream (session_header : String) (message : MCPResponse)
  | serverError (msg : String)
  deriving DecidableEq

/-- The 406 body for a missing/insufficient Accept header. -/
def notAcceptableResponse : MCPResponse :=
  ⟨some "server-error", none,
   some ⟨-32600, "Client must accept both application/json and text/event-stream"⟩⟩

/-- The 400 body used both for a missing session-id header and for the
not-ready rejection (the code reuses the same envelope, message included,
in both branches). -/
def missingSessionResponse : MCPResponse :=
  ⟨some "server-error", none, some ⟨-32600, "Missing session ID"⟩⟩

/-- `handle_mcp_request` (`mcp_server/server.py`): the whole dispatcher for
one request. `now` is the event-loop clock reading; the session header is
`none` when absent. Order of checks follows the source: Accept header,
`initialize` bypass, session-header presence (Python falsiness, so an empty
header counts as missing), session lookup, the `notifications/initialized`
transition, the not-ready gate, then method dispatch. -/
def handle_mcp_request (srv : MCPServer) (now : Nat) (accept : Option String)
    (session_header : Option String) (req : MCPRequest) :
    HttpOutcome × MCPServer :=
  if !(validate_accept_header accept) then
    (.jsonReject 406 notAcceptableResponse, srv)
  else if req.method = "initialize" then
    let (resp, sid, srv2) := srv.handle_initialize now req
    (.sseStream sid resp, srv2)
  else
    match session_header with
    | none => (.jsonReject 400 missingSessionResponse, srv)
    | some sid =>
      if sid = "" then (.jsonReject 400 missingSessionResponse, srv)
      else
        match srv.get_session sid now with
        | (none, srv2) => (.textReject 400 "No valid session ID provided", srv2)
        | (some sess, srv2) =>
          if req.method = "notifications/initialized" then
            let ready : MCPSession := { sess with ready_for_operation := true }
            (.accepted sess.session_id,
             { srv2 with sessions := updateAssoc srv2.sessions sid ready })
          else if !sess.ready_for_operation then
            (.jsonReject 400 missingSessionResponse, srv2)
          else if req.method = "tools/list" then
            (.sseStream sid (srv2.handle_tools_list req), srv2)
          else if req.method = "tools/call" then
            match srv2.handle_tools_call req with
            | .ok resp => (.sseStream sid resp, srv2)
            | .error e => (.serverError e, srv2)
          else
            (.sseStream sid
              ⟨req.id, none, some ⟨-32602, "Method '" ++ req.method ++ "' not found"⟩⟩,
             srv2)

/-- Escaping of one character inside a JSON string literal, as
`json.dumps` produces it for the protocol's payloads (quote, backslash and
the common control characters; the full `\uXXXX` escape family is not
needed by any payload of this repository). -/
def escapeJsonChar (c : Char) : List Char :=
  if c = '"' then ['\\', '"']
  else if c = '\\' then ['\\', '\\']
  else if c = '\n' then ['\\', 'n']
  else if c = '\x0d' then ['\\', 'r']
  else if c = '\t' then ['\\', 't']
  else [c]

/-- JSON string-body escaping. -/
def escapeJsonStr (s : String) : String :=
  String.mk (s.data.map escapeJsonChar).flatten

mutual
/-- `json.dumps` with the default separators (", " and ": "), the embedding
of the standard-library serializer used by `_create_sse_stream`. -/
def jsonDumps : JValue → String
  | .jnull => "null"
  | .jbool true => "true"
  | .jbool false => "false"
  | .jnum n => toString n
  | .jstr s => "\"" ++ escapeJsonStr s ++ "\""
  | .jarr xs => "[" ++ jsonDumpsItems xs ++ "]"
  | .jobj fs => "\x7b" ++ jsonDumpsFields fs ++ "\x7d"
/-- Comma-separated array items. -/
def jsonDumpsItems : JList → String
  | .jnil => ""
  | .jcons x .jnil => jsonDumps x
  | .jcons x (.jcons y t) => jsonDumps x ++ ", " ++ jsonDumpsItems (.jcons y t)
/-- Comma-separated `"key": value` object fields. -/
def jsonDumpsFields : JFields → String
  | .fnil => ""
  | .fcons k v .fnil => "\"" ++ escapeJsonStr k ++ "\": " ++ jsonDumps v
  | .fcons k v (.fcons k2 v2 t) =>
      "\"" ++ escapeJsonStr k ++ "\": " ++ jsonDumps v ++ ", " ++
        jsonDumpsFields (.fcons k2 v2 t)
end

/-- JSON insignificant whitespace. -/
def isJsonWs (c : Char) : Bool :=
  c = ' ' || c = '\t' || c = '\n' || c = '\x0d'

/-- Skip insignificant whitespace. -/
def skipWs (cs : List Char) : List Char :=
  cs.dropWhile isJsonWs

/-- Parse the body of a JSON string literal (after the opening quote),
undoing `escapeJsonChar`; returns the decoded string and the rest of the
input past the closing quote. -/
def parseJStr : Nat → List Char → Option (String × List Char)
  | 0, _ => none
  | _, [] => none
  | fuel + 1, c :: rest =>
    if c = '"' then some ("", rest)
    else if c = '\\' then
      match rest with
      | [] => none
      | e :: rest2 =>
        let dec : Option Char :=
          if e = '"' then some '"'
          else if e = '\\' then some '\\'
          else if e = '/' then some '/'
          else if e = 'n' then some '\n'
          else if e = 'r' then some '\x0d'
          else if e = 't' then some '\t'
          else none
        match dec with
        | none => none
        | some d => (parseJStr fuel rest2).map (fun p => (String.mk (d :: p.1.data), p.2))
    else (parseJStr fuel rest).map (fun p => (String.mk (c :: p.1.data), p.2))

/-- Parse a JSON integer (an optional minus sign and digits; the payloads
of this repository carry no fractional numbers). -/
def parseJNum : List Char → Option (JValue × List Char)
  | '-' :: rest => (parseDigits rest).map (fun p => (.jnum (-(p.1 : Int)), p.2))
  | cs => (parseDigits cs).map (fun p => (.jnum (p.1 : Int), p.2))

mutual
/-- Recursive-descent JSON parser, the embedding of the standard-library
`json.loads` used by `_parse_sse_response_streaming`; `fuel` bounds the
nesting depth and is drawn from the input length at the top level. -/
def parseJ : Nat → List Char → Option (JValue × List Char)
  | 0, _ => none
  | fuel + 1, cs =>
    match skipWs cs with
    | [] => none
    | 'n' :: 'u' :: 'l' :: 'l' :: r => some (.jnull, r)
    | 't' :: 'r' :: 'u' :: 'e' :: r => some (.jbool true, r)
    | 'f' :: 'a' :: 'l' :: 's' :: 'e' :: r => some (.jbool false, r)
    | '"' :: r => (parseJStr fuel r).map (fun p => (.jstr p.1, p.2))
    | '[' :: r =>
      (match skipWs r with
       | ']' :: r2 => some (.jarr .jnil, r2)
       | r2 => (parseJItems fuel r2).map (fun p => (.jarr p.1, p.2)))
    | c :: r =>
      if c = '\x7b' then
        match skipWs r with
        | c2 :: r2 =>
          if c2 = '\x7d' then some (.jobj .fnil, r2)
          else (parseJFields fuel (c2 :: r2)).map (fun p => (.jobj p.1, p.2))
        | [] => none
      else parseJNum (c :: r)
/-- One-or-more comma-separated array items followed by `]`. -/
def parseJItems : Nat → List Char → Option (JList × List Char)
  | 0, _ => none
  | fuel + 1, cs =>
    match parseJ fuel cs with
    | none => none
    | some (v, r) =>
      match skipWs r with
      | ',' :: r2 => (parseJItems fuel r2).map (fun p => (.jcons v p.1, p.2))
      | ']' :: r2 => some (.jcons v .jnil, r2)
      | _ => none
/-- One-or-more comma-separated `"key": value` fields followed by the
closing brace. -/
def parseJFields : Nat → List Char → Option (JFields × List Char)
  | 0, _ => none
  | fuel + 1, cs =>
    match skipWs cs with
    | '"' :: r =>
      (match parseJStr fuel r with
       | none => none
       | some (k, r2) =>
         match skipWs r2 with
         | ':' :: r3 =>
           (match parseJ fuel r3 with
            | none => none
            | some (v, r4) =>
              match skipWs r4 with
              | ',' :: r5 => (parseJFields fuel r5).map (fun p => (.fcons k v p.1, p.2))
              | c :: r5 => if c = '\x7d' then some (.fcons k v .fnil, r5) else none
              | [] => none)
         | _ => none)
    | _ => none
end

/-- `json.loads`: parse one JSON document and require only insignificant
whitespace after it. -/
def jsonLoads (s : String) : Option JValue :=
  match parseJ (s.length + 1) s.data with
  | some (v, r) => if (skipWs r).isEmpty then some v else none
  | none => none

/-- Modelled from the spec: `message.dict(exclude_none=True)` of the
pydantic response model (`mcp_server/models/response.py` is not under
`src/`): the response envelope as a JSON object, with absent (`None`)
fields dropped. -/
def responseToJv (r : MCPResponse) : JFields :=
  let tail1 : JFields :=
    match r.result, r.error with
    | some j, some e =>
        .fcons "result" j (.fcons "error"
          (.jobj (.fcons "code" (.jnum e.code) (.fcons "message" (.jstr e.message) .fnil))) .fnil)
    | some j, none => .fcons "result" j .fnil
    | none, some e =>
        .fcons "error"
          (.jobj (.fcons "code" (.jnum e.code) (.fcons "message" (.jstr e.message) .fnil))) .fnil
    | none, none => .fnil
  match r.id with
  | some i => .fcons "id" (.jstr i) tail1
  | none => tail1

/-- `_create_sse_stream` (`mcp_server/server.py`), at line granularity: each
message is one chunk `data: <json>\n\n` — two lines, the data record and a
blank — followed by the terminal `data: [DONE]\n\n` chunk (`json.dumps`
output never contains a newline, so chunk and line boundaries agree). -/
def create_sse_stream_lines (messages : List MCPResponse) : List String :=
  (messages.map (fun m => ["data: " ++ jsonDumps (.jobj (responseToJv m)), ""])).flatten ++
    ["data: [DONE]", ""]

/-- `CustomMCPClient._parse_sse_response_streaming`
(`agent/clients/custom_mcp_client.py`) over the decoded lines of the body:
skip blank and comment lines, take `data: `-prefixed lines, ignore the
`[DONE]` sentinel and empty payloads, return the first payload `json.loads`
accepts, and fail with the no-data error when the stream ends first. The
JSON layer is a parameter instantiated with `jsonLoads`. -/
def parse_sse_lines (jsonParse : String → Option JValue) :
    List String → Except String JValue
  | [] => .error "No valid JSON data found in SSE stream"
  | line :: rest =>
    let ls := pyStrip line
    if ls = "" then parse_sse_lines jsonParse rest
    else if startsWithStr ls ":" then parse_sse_lines jsonParse rest
    else if startsWithStr ls "data: " then
      let dp := pyStrip (strDrop ls 6)
      if dp = "[DONE]" || dp = "" then parse_sse_lines jsonParse rest
      else
        match jsonParse dp with
        | some j => .ok j
        | none => parse_sse_lines jsonParse rest
    else parse_sse_lines jsonParse rest

/-- The data record a single line contributes to
`_parse_sse_response_streaming`, if any: factoring of the loop body used to
specify which line the decoder answers from. -/
def sse_line_record (jsonParse : String → Option JValue) (line : String) :
    Option JValue :=
  let ls := pyStrip line
  if ls = "" then none
  else if startsWithStr ls ":" then none
  else if startsWithStr ls "data: " then
    let dp := pyStrip (strDrop ls 6)
    if dp = "[DONE]" || dp = "" then none else jsonParse dp
  else none

/-- `CustomMCPClient.call_tool`, the result-extraction step: given the
`result` object of the tools/call response, Python computes
`response["result"].get("content", [])`, returns the first item's
`item.get("text", "")` when the list and the item are truthy, and the
placeholder string otherwise. `none` models an uncaught Python exception
(indexing a truthy non-list, or `.get` on a truthy non-dict item). -/
def call_tool_result (result : JFields) : Option JValue :=
  let content := (result.lookup "content").getD (.jarr .jnil)
  if content.isTruthy then
    match content with
    | .jarr (.jcons item _) =>
      if item.isTruthy then
        match item with
        | .jobj fs => some ((fs.lookup "text").getD (.jstr ""))
        | _ => none
      else some (.jstr "Unexpected error occurred!")
    | _ => none
  else some (.jstr "Unexpected error occurred!")

/-- The correlation id field of a decoded envelope object. -/
def jvRespId (j : JValue) : Option String :=
  match j.get "id" with
  | some (.jstr s) => some s
  | _ => none

/-- The result field of a decoded envelope object. -/
def jvRespResult (j : JValue) : Option JValue :=
  j.get "result"

/-- The error field of a decoded envelope object, read back into the error
model. -/
def jvRespError (j : JValue) : Option ErrorResponse :=
  match j.get "error" with
  | some (.jobj fs) =>
    (match fs.lookup "code", fs.lookup "message" with
     | some (.jnum c), some (.jstr m) => some ⟨c, m⟩
     | _, _ => none)
  | _ => none

/-- A trivial backend capability, used to instantiate the opaque
`UserClient` in concrete scenarios. -/
def stubUserClient : UserClient :=
  { get_user := fun _ => .ok "", search_users := fun _ => .ok "",
    add_user := fun _ => .ok "", update_user := fun _ _ => .ok "",
    delete_user := fun _ => .ok "" }

/-- The Accept header every well-behaved client of this protocol sends. -/
def acceptBoth : Option String :=
  some "application/json, text/event-stream"

/-- A session that has completed the handshake. -/
def readySession (sid : String) : MCPSession :=
  ⟨sid, true, 0, 0⟩

/-- A session still in the `Created` state. -/
def createdSession (sid : String) : MCPSession :=
  ⟨sid, false, 0, 0⟩

/-- A registered tool whose execute capability always raises. -/
def failingTool : Tool :=
  ⟨"always_fails", "a tool whose execute raises", .jnull,
   fun _ => .error "backend exploded"⟩

/-- A server with one Ready session and the failing tool registered. -/
def srvWithFailingTool : MCPServer :=
  { sessions := [("s1", readySession "s1")],
    tools := [("always_fails", failingTool)], uuid_counter := 1 }

/-- A server with one Ready session and the repository's real registry
(against the trivial backend). -/
def srvRegistryReady : MCPServer :=
  { sessions := [("s1", readySession "s1")],
    tools := register_tools stubUserClient, uuid_counter := 1 }

/-- A server with one session still in the `Created` state. -/
def srvCreatedOnly : MCPServer :=
  { sessions := [("s1", createdSession "s1")],
    tools := register_tools stubUserClient, uuid_counter := 1 }

/-- A sample successful response envelope. -/
def sampleOkResponse : MCPResponse :=
  ⟨some "1", some (.jobj (.fcons "ok" (.jbool true) .fnil)), none⟩

/-! Helper lemmas about the association-list store operations. -/

theorem lookupA_updateAssoc_self {α : Type} (m : List (String × α)) (k : String)
    (v0 v : α) (h : lookupA m k = some v0) :
    lookupA (updateAssoc m k v) k = some v := by
  induction m with
  | nil => simp [lookupA] at h
  | cons p t ih =>
    obtain ⟨k1, x1⟩ := p
    by_cases hk : k1 = k
    · simp [lookupA, updateAssoc, hk]
    · simp only [lookupA, if_neg hk] at h
      simp only [updateAssoc, if_neg hk, lookupA]
      exact ih h

theorem lookupA_updateAssoc_ne {α : Type} (m : List (String × α)) (k k2 : String)
    (v : α) (hne : k2 ≠ k) :
    lookupA (updateAssoc m k v) k2 = lookupA m k2 := by
  induction m with
  | nil => simp [updateAssoc]
  | cons p t ih =>
    obtain ⟨k1, x1⟩ := p
    by_cases hk : k1 = k
    · subst hk
      have hne2 : k1 ≠ k2 := fun hh => hne hh.symm
      simp [updateAssoc, lookupA, hne2]
    · simp only [updateAssoc, if_neg hk, lookupA]
      rw [ih]

theorem map_fst_updateAssoc {α : Type} (m : List (String × α)) (k : String) (v : α) :
    (updateAssoc m k v).map Prod.fst = m.map Prod.fst := by
  induction m with
  | nil => simp [updateAssoc]
  | cons p t ih =>
    obtain ⟨k1, x1⟩ := p
    by_cases hk : k1 = k
    · simp [updateAssoc, hk]
    · simp [updateAssoc, hk, ih]

theorem lookupA_append_of_none {α : Type} (a b : List (String × α)) (k : String)
    (h : lookupA a k = none) : lookupA (a ++ b) k = lookupA b k := by
  induction a with
  | nil => simp
  | cons p t ih =>
    obtain ⟨k1, x1⟩ := p
    by_cases hk : k1 = k
    · simp [lookupA, hk] at h
    · simp only [lookupA, if_neg hk, List.cons_append] at h ⊢
      exact ih h

theorem lookupA_none_of_all_ne {α : Type} (m : List (String × α)) (k : String)
    (h : ∀ p ∈ m, p.1 ≠ k) : lookupA m k = none := by
  induction m with
  | nil => rfl
  | cons p t ih =>
    obtain ⟨k1, x1⟩ := p
    have h1 : k1 ≠ k := h (k1, x1) (by simp)
    simp only [lookupA, if_neg h1]
    exact ih (fun q hq => h q (by simp [hq]))

/-! Helper lemmas about the SSE line decoder. -/

theorem sse_skip (p : String → Option JValue) (line : String) (rest : List String)
    (h : sse_line_record p line = none) :
    parse_sse_lines p (line :: rest) = parse_sse_lines p rest := by
  simp only [sse_line_record] at h
  by_cases h1 : pyStrip line = ""
  · simp [parse_sse_lines, h1]
  · by_cases h2 : startsWithStr (pyStrip line) ":" = true
    · simp [parse_sse_lines, h1, h2]
    · by_cases h3 : startsWithStr (pyStrip line) "data: " = true
      · by_cases h4 : pyStrip (strDrop (pyStrip line) 6) = "[DONE]"
        · simp [parse_sse_lines, h1, h2, h3, h4]
        · by_cases h5 : pyStrip (strDrop (pyStrip line) 6) = ""
          · simp [parse_sse_lines, h1, h2, h3, h4, h5]
          · have hp : p (pyStrip (strDrop (pyStrip line) 6)) = none := by
              simpa [h1, h2, h3, h4, h5] using h
            simp [parse_sse_lines, h1, h2, h3, h4, h5, hp]
      · simp [parse_sse_lines, h1, h2, h3]

theorem sse_hit (p : String → Option JValue) (line : String) (rest : List String)
    (j : JValue) (h : sse_line_record p line = some j) :
    parse_sse_lines p (line :: rest) = .ok j := by
  simp only [sse_line_record] at h
  by_cases h1 : pyStrip line = ""
  · simp [h1] at h
  · by_cases h2 : startsWithStr (pyStrip line) ":" = true
    · simp [h1, h2] at h
    · by_cases h3 : startsWithStr (pyStrip line) "data: " = true
      · by_cases h4 : pyStrip (strDrop (pyStrip line) 6) = "[DONE]"
        · simp [h1, h2, h3, h4] at h
        · by_cases h5 : pyStrip (strDrop (pyStrip line) 6) = ""
          · simp [h1, h2, h3, h4, h5] at h
          · have hp : p (pyStrip (strDrop (pyStrip line) 6)) = some j := by
              simpa [h1, h2, h3, h4, h5] using h
            simp [parse_sse_lines, h1, h2, h3, h4, h5, hp]
      · simp [h1, h2, h3] at h

theorem sse_all_skipped (p : String → Option JValue) :
    ∀ (lines : List String), (∀ x ∈ lines, sse_line_record p x = none) →
    parse_sse_lines p lines = .error "No valid JSON data found in SSE stream" := by
  intro lines
  induction lines with
  | nil => intro _; rfl
  | cons a t ih =>
    intro h
    rw [sse_skip p a t (h a (by simp))]
    exact ih (fun x hx => h x (by simp [hx]))

/-- C10: `get_session` on a present id returns the session with only its
last-activity timestamp updated — id, ready flag and creation timestamp
intact — and leaves every other binding and the rest of the server state
untouched; on an absent id it returns `none` and changes nothing. -/
theorem c10_get_session_frame :
    (∀ (srv : MCPServer) (sid : String) (now : Nat) (sess : MCPSession),
      lookupA srv.sessions sid = some sess →
      srv.get_session sid now =
        (some (touchSession now sess),
         { srv with sessions := updateAssoc srv.sessions sid (touchSession now sess) }) ∧
      (touchSession now sess).session_id = sess.session_id ∧
      (touchSession now sess).ready_for_operation = sess.ready_for_operation ∧
      (touchSession now sess).created_at = sess.created_at ∧
      (touchSession now sess).last_activity = now ∧
      lookupA (updateAssoc srv.sessions sid (touchSession now sess)) sid =
        some (touchSession now sess) ∧
      (∀ k, k ≠ sid →
        lookupA (updateAssoc srv.sessions sid (touchSession now sess)) k =
          lookupA srv.sessions k) ∧
      (updateAssoc srv.sessions sid (touchSession now sess)).map Prod.fst =
        srv.sessions.map Prod.fst) ∧
    (∀ (srv : MCPServer) (sid : String) (now : Nat),
      lookupA srv.sessions sid = none →
      srv.get_session sid now = (none, srv)) := by
  constructor
  · intro srv sid now sess h
    refine ⟨?_, rfl, rfl, rfl, rfl, ?_, ?_, ?_⟩
    · unfold MCPServer.get_session
      rw [h]
    · exact lookupA_updateAssoc_self srv.sessions sid sess (touchSession now sess) h
    · intro k hk
      exact lookupA_updateAssoc_ne srv.sessions sid k (touchSession now sess) hk
    · exact map_fst_updateAssoc srv.sessions sid (touchSession now sess)
  · intro srv sid now h
    unfold MCPServer.get_session
    rw [h]

/-- Closed instance of `c10_get_session_frame` at a concrete store. -/
theorem c10_get_session_frame_witness :
    (srvRegistryReady.get_session "s1" 7 =
      (some (touchSession 7 (readySession "s1")),
       { srvRegistryReady with
          sessions := updateAssoc srvRegistryReady.sessions "s1"
            (touchSession 7 (readySession "s1")) })) ∧
    srvRegistryReady.get_session "zzz" 7 = (none, srvRegistryReady) := by
  constructor
  · exact (c10_get_session_frame.1 srvRegistryReady "s1" 7 (readySession "s1") rfl).1
  · exact c10_get_session_frame.2 srvRegistryReady "zzz" 7 rfl

/-- C3: the client SSE decoder skips blank lines, comment lines and the
`[DONE]` sentinel, answers with the first successfully parsed data record
independently of anything after it, and fails with the no-data error when
the stream ends without a parseable data record. -/
theorem c3_sse_decoder (p : String → Option JValue) :
    (∀ (pre : List String) (l : String) (j : JValue) (post : List String),
      (∀ x ∈ pre, sse_line_record p x = none) →
      sse_line_record p l = some j →
      parse_sse_lines p (pre ++ l :: post) = .ok j) ∧
    (∀ (line : String) (rest : List String),
      (pyStrip line = "" ∨ startsWithStr (pyStrip line) ":" = true ∨
        pyStrip (strDrop (pyStrip line) 6) = "[DONE]") →
      parse_sse_lines p (line :: rest) = parse_sse_lines p rest) ∧
    (∀ lines : List String,
      (∀ x ∈ lines, sse_line_record p x = none) →
      parse_sse_lines p lines = .error "No valid JSON data found in SSE stream") := by
  refine ⟨?_, ?_, sse_all_skipped p⟩
  · intro pre
    induction pre with
    | nil =>
      intro l j post _ hl
      exact sse_hit p l post j hl
    | cons a t ih =>
      intro l j post hpre hl
      rw [List.cons_append, sse_skip p a (t ++ l :: post) (hpre a (by simp))]
      exact ih l j post (fun x hx => hpre x (by simp [hx])) hl
  · intro line rest hskip
    apply sse_skip
    unfold sse_line_record
    rcases hskip with h1 | h2 | h3
    · simp [h1]
    · by_cases h1 : pyStrip line = ""
      · simp [h1]
      · simp [h1, h2]
    · by_cases h1 : pyStrip line = ""
      · simp [h1]
      · by_cases h2 : startsWithStr (pyStrip line) ":" = true
        · simp [h1, h2]
        · simp only [Bool.not_eq_true] at h2
          by_cases h4 : startsWithStr (pyStrip line) "data: " = true
          · simp [h1, h2, h4, h3]
          · simp only [Bool.not_eq_true] at h4
            simp [h1, h2, h4]

/-- Closed instance of `c3_sse_decoder`: the spec's example stream decodes
to the record with id "1"; blank, comment and sentinel lines are skipped;
a stream of only comments and the sentinel fails with the no-data error. -/
theorem c3_sse_decoder_witness :
    parse_sse_lines jsonLoads
      ["", ":comment", "data: \x7b\"id\":\"1\",\"result\":\x7b\x7d\x7d", "",
       "data: [DONE]", ""] =
      .ok (.jobj (.fcons "id" (.jstr "1") (.fcons "result" (.jobj .fnil) .fnil))) ∧
    parse_sse_lines jsonLoads ["data: [DONE]", "data: \x7b\"id\":\"2\"\x7d"] =
      parse_sse_lines jsonLoads ["data: \x7b\"id\":\"2\"\x7d"] ∧
    parse_sse_lines jsonLoads [":c", "data: [DONE]", ""] =
      .error "No valid JSON data found in SSE stream" := by
  refine ⟨?_, ?_, ?_⟩
  · exact (c3_sse_decoder jsonLoads).1 ["", ":comment"]
      "data: \x7b\"id\":\"1\",\"result\":\x7b\x7d\x7d" _ ["", "data: [DONE]", ""]
      (by intro x hx; fin_cases hx <;> rfl) rfl
  · exact (c3_sse_decoder jsonLoads).2.1 "data: [DONE]" _ (Or.inr (Or.inr rfl))
  · exact (c3_sse_decoder jsonLoads).2.2 [":c", "data: [DONE]", ""]
      (by intro x hx; fin_cases hx <;> rfl)

/-- C2: on a session that is in the store but still in the `Created` state
(not ready), every method other than `initialize` and
`notifications/initialized` — `tools/list`, `tools/call` and unrecognized
methods alike — is rejected with the 400 not-ready rejection and never
reaches the streamed-response path, so no tool result is produced. -/
theorem c2_created_session_rejected (srv : MCPServer) (now : Nat)
    (accept : Option String) (sid : String) (req : MCPRequest) (sess : MCPSession)
    (haccept : validate_accept_header accept = true)
    (hsid : sid ≠ "")
    (hlookup : lookupA srv.sessions sid = some sess)
    (hready : sess.ready_for_operation = false)
    (hm1 : req.method ≠ "initialize")
    (hm2 : req.method ≠ "notifications/initialized") :
    (handle_mcp_request srv now accept (some sid) req).1 =
      .jsonReject 400 missingSessionResponse ∧
    ∀ (h : String) (r : MCPResponse),
      (handle_mcp_request srv now accept (some sid) req).1 ≠ .sseStream h r := by
  have hmain : (handle_mcp_request srv now accept (some sid) req).1 =
      .jsonReject 400 missingSessionResponse := by
    simp [handle_mcp_request, MCPServer.get_session, haccept, hm1, hm2, hsid,
      hlookup, hready, touchSession]
  refine ⟨hmain, ?_⟩
  intro h r hc
  rw [hmain] at hc
  exact HttpOutcome.noConfusion hc

/-- Closed instance of `c2_created_session_rejected`: a `tools/call` on a
Created session is rejected with the 400 not-ready envelope. -/
theorem c2_created_session_rejected_witness :
    (handle_mcp_request srvCreatedOnly 5 acceptBoth (some "s1")
      ⟨some "3", "tools/call", none⟩).1 = .jsonReject 400 missingSessionResponse ∧
    ∀ (h : String) (r : MCPResponse),
      (handle_mcp_request srvCreatedOnly 5 acceptBoth (some "s1")
        ⟨some "3", "tools/call", none⟩).1 ≠ .sseStream h r :=
  c2_created_session_rejected srvCreatedOnly 5 acceptBoth "s1"
    ⟨some "3", "tools/call", none⟩ (createdSession "s1")
    rfl (by decide) rfl rfl (by decide) (by decide)

/-- C5: at the failing input — a Ready session and the unrecognized method
`resources/list` — the dispatcher answers with a JSON-RPC error envelope
carrying code -32602 (the InvalidParams number), not the -32601
MethodNotFound class: the envelope's own message "Method ... not found"
names the MethodNotFound class, and the unknown-tool branch of the same
codebase uses -32601, so the -32602 literal is a slip in the code. -/
theorem c5_unknown_method_code_behavior :
    (handle_mcp_request srvRegistryReady 5 acceptBoth (some "s1")
      ⟨some "9", "resources/list", none⟩).1 =
      .sseStream "s1"
        ⟨some "9", none, some ⟨-32602, "Method 'resources/list' not found"⟩⟩ ∧
    ("resources/list" ≠ "initialize" ∧
     "resources/list" ≠ "notifications/initialized" ∧
     "resources/list" ≠ "tools/list" ∧ "resources/list" ≠ "tools/call") ∧
    (-32602 : Int) ≠ -32601 :=
  ⟨rfl, by decide, by decide⟩

/-- C1: a `tools/call` on a Ready session naming a registered tool whose
execute capability raises is answered on the streamed-response path (no
transport rejection, no JSON-RPC error object) with a result whose content
is a single text item carrying a non-empty failure message and whose
`isError` marker is true. -/
theorem c1_tool_failure_flagged (srv : MCPServer) (now : Nat)
    (accept : Option String) (sid : String) (req : MCPRequest) (sess : MCPSession)
    (ps : JFields) (s : String) (tool : Tool) (emsg : String)
    (haccept : validate_accept_header accept = true)
    (hsid : sid ≠ "")
    (hlookup : lookupA srv.sessions sid = some sess)
    (hready : sess.ready_for_operation = true)
    (hmethod : req.method = "tools/call")
    (hparams : req.params = some ps)
    (hname : ps.lookup "name" = some (.jstr s))
    (hs : s ≠ "")
    (htool : lookupA srv.tools s = some tool)
    (hexec : tool.execute ((ps.lookup "arguments").getD (.jobj .fnil)) = .error emsg) :
    ∃ srv2 : MCPServer,
      handle_mcp_request srv now accept (some sid) req =
        (.sseStream sid
          ⟨req.id, some (toolErrResult ("Tool execution error: " ++ emsg)), none⟩,
         srv2) ∧
      ("Tool execution error: " ++ emsg) ≠ "" := by
  have hne : ("Tool execution error: " ++ emsg) ≠ "" := by
    intro hc
    have := congrArg String.data hc
    simp [String.data] at this
  cases ps with
  | fnil => simp [JFields.lookup] at hname
  | fcons k v t =>
    refine ⟨{ srv with sessions := updateAssoc srv.sessions sid (touchSession now sess) },
      ?_, hne⟩
    have hst : (JValue.jstr s).isTruthy = true := by simp [JValue.isTruthy, hs]
    have hm1 : req.method ≠ "initialize" := by rw [hmethod]; decide
    have hm2 : req.method ≠ "notifications/initialized" := by rw [hmethod]; decide
    simp [handle_mcp_request, MCPServer.get_session, MCPServer.handle_tools_call,
      MCPServer.handle_tools_call_traced, haccept, hsid, hlookup, hready,
      touchSession, hmethod, hm1, hm2, hparams, hname, hst, htool, hexec,
      JFields.isEmpty, Except.map]

/-- Closed instance of `c1_tool_failure_flagged` at a concrete server whose
registered tool always raises. -/
theorem c1_tool_failure_flagged_witness :
    ∃ srv2 : MCPServer,
      handle_mcp_request srvWithFailingTool 5 acceptBoth (some "s1")
        ⟨some "4", "tools/call",
         some (.fcons "name" (.jstr "always_fails") .fnil)⟩ =
        (.sseStream "s1"
          ⟨some "4",
           some (toolErrResult ("Tool execution error: " ++ "backend exploded")),
           none⟩, srv2) ∧
      ("Tool execution error: " ++ "backend exploded") ≠ "" :=
  c1_tool_failure_flagged srvWithFailingTool 5 acceptBoth "s1"
    ⟨some "4", "tools/call", some (.fcons "name" (.jstr "always_fails") .fnil)⟩
    (readySession "s1") (.fcons "name" (.jstr "always_fails") .fnil)
    "always_fails" failingTool "backend exploded"
    rfl (by decide) rfl rfl rfl rfl rfl (by decide) rfl rfl

/-- C4 counterexample: on a Ready session with the repository's registry, a
`tools/call` whose params carry the present name `""` — which names no
registered tool — is answered with the -32602 InvalidParams error ("name
missing"), not a -32601 MethodNotFound-class error as the claim requires
for every present-but-unregistered name. -/
theorem c4_empty_name_counterexample :
    (handle_mcp_request srvRegistryReady 0 acceptBoth (some "s1")
      ⟨some "7", "tools/call", some (.fcons "name" (.jstr "") .fnil)⟩).1 =
      .sseStream "s1"
        ⟨some "7", none, some ⟨-32602, "Missing required parameter: name"⟩⟩ ∧
    (JFields.fcons "name" (.jstr "") .fnil).lookup "name" = some (.jstr "") ∧
    lookupA (register_tools stubUserClient) "" = none ∧
    (-32602 : Int) ≠ -32601 :=
  ⟨rfl, rfl, rfl, by decide⟩

/-- C4 (amended): on `tools/call`, absent params yield the -32602
InvalidParams error; params without a `name` key yield -32602; a present
but falsy name (empty string, null, zero, false, or empty containers) is
treated as missing and also yields -32602; a non-empty string name matching
no registered tool yields the -32601 MethodNotFound-class error whose
message quotes the name; and an execute capability only ever runs for a
registered name. -/
theorem c4_tools_call_validation :
    (∀ (srv : MCPServer) (req : MCPRequest), req.params = none →
      srv.handle_tools_call req =
        .ok ⟨req.id, none, some ⟨-32602, "Missing parameters"⟩⟩) ∧
    (∀ (srv : MCPServer) (req : MCPRequest) (ps : JFields),
      req.params = some ps → ps.lookup "name" = none →
      ∃ msg : String, srv.handle_tools_call req =
        .ok ⟨req.id, none, some ⟨-32602, msg⟩⟩) ∧
    (∀ (srv : MCPServer) (req : MCPRequest) (ps : JFields) (v : JValue),
      req.params = some ps → ps.lookup "name" = some v → v.isTruthy = false →
      srv.handle_tools_call req =
        .ok ⟨req.id, none, some ⟨-32602, "Missing required parameter: name"⟩⟩) ∧
    (∀ (srv : MCPServer) (req : MCPRequest) (ps : JFields) (s : String),
      req.params = some ps → ps.lookup "name" = some (.jstr s) → s ≠ "" →
      lookupA srv.tools s = none →
      srv.handle_tools_call req =
        .ok ⟨req.id, none, some ⟨-32601, "Tool '" ++ s ++ "' not found"⟩⟩) ∧
    (∀ (srv : MCPServer) (req : MCPRequest) (resp : MCPResponse) (s : String),
      srv.handle_tools_call_traced req = .ok (resp, some s) →
      (lookupA srv.tools s).isSome = true) := by
  refine ⟨?_, ?_, ?_, ?_, ?_⟩
  · intro srv req h
    simp [MCPServer.handle_tools_call, MCPServer.handle_tools_call_traced, h,
      Except.map]
  · intro srv req ps h hn
    cases ps with
    | fnil =>
      exact ⟨"Missing parameters",
        by simp [MCPServer.handle_tools_call, MCPServer.handle_tools_call_traced,
          h, JFields.isEmpty, Except.map]⟩
    | fcons k v t =>
      exact ⟨"Missing required parameter: name",
        by simp [MCPServer.handle_tools_call, MCPServer.handle_tools_call_traced,
          h, hn, JFields.isEmpty, Except.map]⟩
  · intro srv req ps v h hn hf
    cases ps with
    | fnil => simp [JFields.lookup] at hn
    | fcons k w t =>
      simp [MCPServer.handle_tools_call, MCPServer.handle_tools_call_traced,
        h, hn, hf, JFields.isEmpty, Except.map]
  · intro srv req ps s h hn hs hl
    cases ps with
    | fnil => simp [JFields.lookup] at hn
    | fcons k w t =>
      have hst : (JValue.jstr s).isTruthy = true := by simp [JValue.isTruthy, hs]
      simp [MCPServer.handle_tools_call, MCPServer.handle_tools_call_traced,
        h, hn, hst, hl, JFields.isEmpty, Except.map]
  · intro srv req resp s h
    unfold MCPServer.handle_tools_call_traced at h
    split at h
    · simp at h
    · split at h
      · simp at h
      · split at h
        · simp at h
        · split at h
          · simp at h
          · split at h
            · simp at h
            · simp at h
            · split at h
              · simp at h
              · rename_i hlook
                dsimp only at h
                split at h <;>
                  · simp only [Except.ok.injEq, Prod.mk.injEq,
                      Option.some.injEq] at h
                    rw [← h.2, hlook]
                    rfl
            · simp at h

/-- Closed instances of `c4_tools_call_validation`: each validation branch
at a concrete request against the repository's registry. -/
theorem c4_tools_call_validation_witness :
    srvRegistryReady.handle_tools_call ⟨some "1", "tools/call", none⟩ =
      .ok ⟨some "1", none, some ⟨-32602, "Missing parameters"⟩⟩ ∧
    (∃ msg : String,
      srvRegistryReady.handle_tools_call
        ⟨some "2", "tools/call", some (.fcons "arguments" (.jobj .fnil) .fnil)⟩ =
        .ok ⟨some "2", none, some ⟨-32602, msg⟩⟩) ∧
    srvRegistryReady.handle_tools_call
        ⟨some "3", "tools/call", some (.fcons "name" .jnull .fnil)⟩ =
      .ok ⟨some "3", none, some ⟨-32602, "Missing required parameter: name"⟩⟩ ∧
    srvRegistryReady.handle_tools_call
        ⟨some "4", "tools/call", some (.fcons "name" (.jstr "no_such_tool") .fnil)⟩ =
      .ok ⟨some "4", none, some ⟨-32601, "Tool 'no_such_tool' not found"⟩⟩ ∧
    (lookupA srvRegistryReady.tools "get_user_by_id").isSome = true :=
  ⟨c4_tools_call_validation.1 srvRegistryReady ⟨some "1", "tools/call", none⟩ rfl,
   c4_tools_call_validation.2.1 srvRegistryReady
     ⟨some "2", "tools/call", some (.fcons "arguments" (.jobj .fnil) .fnil)⟩
     (.fcons "arguments" (.jobj .fnil) .fnil) rfl rfl,
   c4_tools_call_validation.2.2.1 srvRegistryReady
     ⟨some "3", "tools/call", some (.fcons "name" .jnull .fnil)⟩
     (.fcons "name" .jnull .fnil) .jnull rfl rfl rfl,
   c4_tools_call_validation.2.2.2.1 srvRegistryReady
     ⟨some "4", "tools/call", some (.fcons "name" (.jstr "no_such_tool") .fnil)⟩
     (.fcons "name" (.jstr "no_such_tool") .fnil) "no_such_tool" rfl rfl
     (by decide) rfl,
   c4_tools_call_validation.2.2.2.2 srvRegistryReady
     ⟨some "5", "tools/call",
      some (.fcons "name" (.jstr "get_user_by_id")
        (.fcons "arguments" (.jobj (.fcons "id" (.jnum 1) .fnil)) .fnil))⟩
     ⟨some "5",
      some (toolOkResult ""), none⟩ "get_user_by_id" rfl⟩

/-! Helper lemmas about the fresh session-id supply. -/

theorem mintSessionId_length (n : Nat) : (mintSessionId n).length = n + 1 := by
  have h : (mintSessionId n).length = (List.replicate (n + 1) 'a').length := rfl
  rw [h, List.length_replicate]

theorem mintSessionId_inj {m n : Nat} (h : mintSessionId m = mintSessionId n) :
    m = n := by
  have h2 := congrArg String.length h
  rw [mintSessionId_length, mintSessionId_length] at h2
  omega

theorem mintSessionId_ne_empty (n : Nat) : mintSessionId n ≠ "" := by
  intro h
  have h2 := congrArg String.length h
  rw [mintSessionId_length] at h2
  simp at h2

/-- C6: `initialize` mints a session id that is non-empty and distinct from
every id minted by previous calls (under the invariant that every stored
key came from an earlier draw of the supply), inserts a session with that
id in the Created (not ready) state stamped with the current time, sets the
id as the stream's session header, and answers a result envelope — result
present, no error — carrying the request's correlation id; the invariant is
preserved, so ids stay pairwise distinct across repeated calls. -/
theorem c6_initialize_fresh_session (srv : MCPServer) (now : Nat)
    (accept : Option String) (hdr : Option String) (req : MCPRequest)
    (haccept : validate_accept_header accept = true)
    (hmethod : req.method = "initialize")
    (hfresh : ∀ p ∈ srv.sessions, ∃ m, m < srv.uuid_counter ∧
      p.1 = mintSessionId m) :
    ∃ r : MCPResponse,
      handle_mcp_request srv now accept hdr req =
        (.sseStream (mintSessionId srv.uuid_counter) r,
         { srv with
            sessions := srv.sessions ++
              [(mintSessionId srv.uuid_counter,
                ⟨mintSessionId srv.uuid_counter, false, now, now⟩)],
            uuid_counter := srv.uuid_counter + 1 }) ∧
      r.id = req.id ∧ r.result.isSome = true ∧ r.error = none ∧
      mintSessionId srv.uuid_counter ≠ "" ∧
      (∀ p ∈ srv.sessions, p.1 ≠ mintSessionId srv.uuid_counter) ∧
      lookupA (srv.sessions ++
          [(mintSessionId srv.uuid_counter,
            ⟨mintSessionId srv.uuid_counter, false, now, now⟩)])
        (mintSessionId srv.uuid_counter) =
        some ⟨mintSessionId srv.uuid_counter, false, now, now⟩ ∧
      (∀ p ∈ srv.sessions ++
          [(mintSessionId srv.uuid_counter,
            ⟨mintSessionId srv.uuid_counter, false, now, now⟩)],
        ∃ m, m < srv.uuid_counter + 1 ∧ p.1 = mintSessionId m) := by
  have hne_prev : ∀ p ∈ srv.sessions, p.1 ≠ mintSessionId srv.uuid_counter := by
    intro p hp hc
    obtain ⟨m, hm, he⟩ := hfresh p hp
    rw [he] at hc
    have := mintSessionId_inj hc
    omega
  have hlook : lookupA srv.sessions (mintSessionId srv.uuid_counter) = none :=
    lookupA_none_of_all_ne _ _ hne_prev
  have hins : insertAssoc srv.sessions (mintSessionId srv.uuid_counter)
      ⟨mintSessionId srv.uuid_counter, false, now, now⟩ =
      srv.sessions ++
        [(mintSessionId srv.uuid_counter,
          ⟨mintSessionId srv.uuid_counter, false, now, now⟩)] := by
    simp [insertAssoc, hlook]
  refine ⟨( srv.handle_initialize now req).1, ?_, rfl, ?_, rfl,
    mintSessionId_ne_empty _, hne_prev, ?_, ?_⟩
  · simp only [handle_mcp_request, haccept, Bool.not_true, Bool.false_eq_true,
      if_false, hmethod, if_true]
    simp [ MCPServer.handle_initialize, hins]
  · cases hreqp : req.params with
    | none => simp [ MCPServer.handle_initialize]
    | some ps => simp [ MCPServer.handle_initialize]
  · rw [lookupA_append_of_none _ _ _ hlook]
    simp [lookupA]
  · intro p hp
    rcases List.mem_append.1 hp with hin | hin
    · obtain ⟨m, hm, he⟩ := hfresh p hin
      exact ⟨m, by omega, he⟩
    · refine ⟨srv.uuid_counter, by omega, ?_⟩
      simp only [List.mem_singleton] at hin
      rw [hin]

/-- Closed instance of `c6_initialize_fresh_session` on a freshly started
server. -/
theorem c6_initialize_fresh_session_witness :
    ∃ r : MCPResponse,
      handle_mcp_request (MCPServer.init stubUserClient) 3 acceptBoth none
        ⟨some "0", "initialize", none⟩ =
        (.sseStream (mintSessionId 0) r,
         { MCPServer.init stubUserClient with
            sessions := (MCPServer.init stubUserClient).sessions ++
              [(mintSessionId 0, ⟨mintSessionId 0, false, 3, 3⟩)],
            uuid_counter := 1 }) ∧
      r.id = some "0" ∧ r.result.isSome = true ∧ r.error = none ∧
      mintSessionId 0 ≠ "" ∧
      (∀ p ∈ (MCPServer.init stubUserClient).sessions, p.1 ≠ mintSessionId 0) ∧
      lookupA ((MCPServer.init stubUserClient).sessions ++
          [(mintSessionId 0, ⟨mintSessionId 0, false, 3, 3⟩)]) (mintSessionId 0) =
        some ⟨mintSessionId 0, false, 3, 3⟩ ∧
      (∀ p ∈ (MCPServer.init stubUserClient).sessions ++
          [(mintSessionId 0, ⟨mintSessionId 0, false, 3, 3⟩)],
        ∃ m, m < 1 ∧ p.1 = mintSessionId m) :=
  c6_initialize_fresh_session (MCPServer.init stubUserClient) 3 acceptBoth none
    ⟨some "0", "initialize", none⟩ rfl rfl (by intro p hp; simp [MCPServer.init] at hp)

/-! Helper lemmas about strings and the event-stream framing. -/

theorem data_append (a b : String) : (a ++ b).data = a.data ++ b.data := by
  cases a
  cases b
  rfl

theorem mk_data (s : String) : String.mk s.data = s := by
  cases s
  rfl

theorem dropWhile_head_false (p : Char → Bool) :
    ∀ (l : List Char) (c : Char) (t : List Char),
      List.dropWhile p l = c :: t → p c = false := by
  intro l
  induction l with
  | nil => intro c t h; simp [List.dropWhile] at h
  | cons a l2 ih =>
    intro c t h
    by_cases hp : p a = true
    · rw [List.dropWhile_cons_of_pos hp] at h
      exact ih c t h
    · rw [List.dropWhile_cons_of_neg hp] at h
      cases h
      simpa using hp

theorem pyStrip_prepend (d : String) (hfix : pyStrip d = d) (hne : d ≠ "") :
    pyStrip ("data: " ++ d) = "data: " ++ d := by
  have hl : ((d.data.dropWhile isPySpace).reverse.dropWhile isPySpace).reverse
      = d.data := congrArg String.data hfix
  have hlne : d.data ≠ [] := by
    intro hc
    apply hne
    rw [← mk_data d, hc]
  have hrevne : d.data.reverse ≠ [] := by simpa using hlne
  obtain ⟨c, t, hct⟩ := List.exists_cons_of_ne_nil hrevne
  have hmid : (d.data.dropWhile isPySpace).reverse.dropWhile isPySpace =
      d.data.reverse := by
    have h2 := congrArg List.reverse hl
    simpa using h2
  have hwc : isPySpace c = false := by
    apply dropWhile_head_false isPySpace ((d.data.dropWhile isPySpace).reverse) c t
    rw [hmid, hct]
  have hdata : ("data: " ++ d).data =
      'd' :: 'a' :: 't' :: 'a' :: ':' :: ' ' :: d.data := by
    rw [data_append]
    rfl
  have key : (((("data: " ++ d).data).dropWhile isPySpace).reverse.dropWhile
      isPySpace).reverse = ("data: " ++ d).data := by
    rw [hdata]
    rw [List.dropWhile_cons_of_neg (by decide)]
    have hsplit : ('d' :: 'a' :: 't' :: 'a' :: ':' :: ' ' :: d.data) =
        ['d', 'a', 't', 'a', ':', ' '] ++ d.data := rfl
    rw [hsplit, List.reverse_append, hct, List.cons_append,
        List.dropWhile_cons_of_neg (by simp [hwc]), ← List.cons_append, ← hct,
        List.reverse_append, List.reverse_reverse, List.reverse_reverse]
  calc pyStrip ("data: " ++ d)
      = String.mk (((("data: " ++ d).data.dropWhile isPySpace).reverse.dropWhile
          isPySpace).reverse) := rfl
    _ = String.mk (("data: " ++ d).data) := congrArg String.mk key
    _ = "data: " ++ d := mk_data _

theorem strDrop_prepend (d : String) : strDrop ("data: " ++ d) 6 = d := by
  cases d with
  | mk l =>
    show String.mk (("data: " ++ String.mk l).data.drop 6) = String.mk l
    rw [data_append]
    rfl

theorem prepend_ne_empty (d : String) : ("data: " ++ d) ≠ "" := by
  intro h
  have h2 := congrArg String.data h
  rw [data_append] at h2
  have h6 : "data: ".data = ['d', 'a', 't', 'a', ':', ' '] := rfl
  rw [h6] at h2
  simp at h2

theorem prepend_startsWith_data (d : String) :
    startsWithStr ("data: " ++ d) "data: " = true := by
  cases d with
  | mk l =>
    show List.isPrefixOf "data: ".data (("data: " ++ String.mk l).data) = true
    rw [data_append]
    have h1 : "data: ".data = ['d', 'a', 't', 'a', ':', ' '] := rfl
    have h2 : (String.mk l).data = l := rfl
    rw [h1, h2, List.isPrefixOf_iff_prefix]
    exact List.prefix_append _ _

theorem prepend_not_comment (d : String) :
    startsWithStr ("data: " ++ d) ":" = false := by
  cases d with
  | mk l =>
    show List.isPrefixOf ":".data (("data: " ++ String.mk l).data) = false
    rw [data_append]
    have h1 : "data: ".data = ['d', 'a', 't', 'a', ':', ' '] := rfl
    have h2 : (String.mk l).data = l := rfl
    have h3 : ":".data = [':'] := rfl
    rw [h1, h2, h3]
    have hnp : ¬ ([':'] <+: ('d' :: 'a' :: 't' :: 'a' :: ':' :: ' ' :: l)) := by
      rw [List.cons_prefix_cons]
      rintro ⟨hc, -⟩
      exact absurd hc (by decide)
    exact Bool.eq_false_iff.mpr
      (fun ht => hnp ( List.isPrefixOf_iff_prefix.mp ht))

/-- C7: a response envelope carrying exactly one of result/error,
serialized by the server's event-stream framing (one data record holding
the `json.dumps` of the envelope followed by the `[DONE]` sentinel) and
decoded by the client's SSE decoder, comes back as the very envelope
object, agreeing with the original in its id and in its result/error
content; the hypotheses are the JSON layer's contract on this envelope
(`loads` undoes `dumps`, whose output is a stripped non-empty line that is
not the sentinel), checked by evaluation in the witness. -/
theorem c7_sse_round_trip (r : MCPResponse)
    (hone : (r.result.isSome = true ∧ r.error = none) ∨
      (r.result = none ∧ r.error.isSome = true))
    (hRT : jsonLoads (jsonDumps (.jobj (responseToJv r))) =
      some (.jobj (responseToJv r)))
    (hfix : pyStrip (jsonDumps (.jobj (responseToJv r))) =
      jsonDumps (.jobj (responseToJv r)))
    (hne : jsonDumps (.jobj (responseToJv r)) ≠ "")
    (hnd : jsonDumps (.jobj (responseToJv r)) ≠ "[DONE]") :
    parse_sse_lines jsonLoads (create_sse_stream_lines [r]) =
      .ok (.jobj (responseToJv r)) ∧
    jvRespId (.jobj (responseToJv r)) = r.id ∧
    jvRespResult (.jobj (responseToJv r)) = r.result ∧
    jvRespError (.jobj (responseToJv r)) = r.error := by
  have hlines : create_sse_stream_lines [r] =
      ["data: " ++ jsonDumps (.jobj (responseToJv r)), "", "data: [DONE]", ""] := rfl
  have hrec : sse_line_record jsonLoads
      ("data: " ++ jsonDumps (.jobj (responseToJv r))) =
      some (.jobj (responseToJv r)) := by
    unfold sse_line_record
    rw [pyStrip_prepend _ hfix hne]
    simp only [prepend_ne_empty, prepend_not_comment, prepend_startsWith_data,
      Bool.false_eq_true, if_false, if_true, strDrop_prepend, hfix]
    simp [prepend_ne_empty _, hnd, hne, hRT]
  have hmain : parse_sse_lines jsonLoads (create_sse_stream_lines [r]) =
      .ok (.jobj (responseToJv r)) := by
    rw [hlines]
    exact sse_hit jsonLoads _ _ _ hrec
  refine ⟨hmain, ?_, ?_, ?_⟩ <;>
  · obtain ⟨i, res, err⟩ := r
    rcases hone with ⟨h1, h2⟩ | ⟨h1, h2⟩
    · obtain ⟨jr, hjr⟩ := Option.isSome_iff_exists.1 h1
      subst hjr
      subst h2
      cases i <;> rfl
    · obtain ⟨er, her⟩ := Option.isSome_iff_exists.1 h2
      subst her
      subst h1
      cases i <;> rfl

/-- Closed instance of `c7_sse_round_trip` at a concrete envelope, with the
JSON layer's contract checked by evaluation. -/
theorem c7_sse_round_trip_witness :
    parse_sse_lines jsonLoads (create_sse_stream_lines [sampleOkResponse]) =
      .ok (.jobj (responseToJv sampleOkResponse)) ∧
    jvRespId (.jobj (responseToJv sampleOkResponse)) = sampleOkResponse.id ∧
    jvRespResult (.jobj (responseToJv sampleOkResponse)) =
      sampleOkResponse.result ∧
    jvRespError (.jobj (responseToJv sampleOkResponse)) = sampleOkResponse.error :=
  c7_sse_round_trip sampleOkResponse (Or.inl ⟨rfl, rfl⟩) rfl rfl
    (by decide) (by decide)

/-- C8: the hand-rolled client's tools/call extraction: when the result
carries a non-empty content list whose first item carries a `text` field,
`call_tool` returns that text; when the result carries no content (the key
is absent or the list is empty/falsy), it returns the placeholder string
instead of failing. -/
theorem c8_call_tool_extraction :
    (∀ (result : JFields) (item : JValue) (rest : JList) (t : JValue),
      result.lookup "content" = some (.jarr (.jcons item rest)) →
      item.get "text" = some t →
      call_tool_result result = some t) ∧
    (∀ result : JFields,
      (result.lookup "content" = none ∨
        (∃ v, result.lookup "content" = some v ∧ v.isTruthy = false)) →
      call_tool_result result = some (.jstr "Unexpected error occurred!")) := by
  constructor
  · intro result item rest t hc ht
    cases item with
    | jobj fs =>
      have hfs : fs.lookup "text" = some t := ht
      have hfsne : fs.isEmpty = false := by
        cases fs with
        | fnil => simp [JFields.lookup] at hfs
        | fcons a b c => rfl
      simp [call_tool_result, hc, JValue.isTruthy, JList.isEmpty, hfsne, hfs]
    | jnull => simp [JValue.get] at ht
    | jbool b => simp [JValue.get] at ht
    | jnum n => simp [JValue.get] at ht
    | jstr s => simp [JValue.get] at ht
    | jarr xs => simp [JValue.get] at ht
  · intro result h
    rcases h with h | ⟨v, hv, hf⟩
    · simp [call_tool_result, h, JValue.isTruthy, JList.isEmpty]
    · simp [call_tool_result, hv, hf]

/-- Closed instances of `c8_call_tool_extraction`: a text item comes back
verbatim; a result without content yields the placeholder. -/
theorem c8_call_tool_extraction_witness :
    call_tool_result
        (.fcons "content" (.jarr (.jcons (.jobj (.fcons "type" (.jstr "text")
          (.fcons "text" (.jstr "User 1") .fnil))) .jnil)) .fnil) =
      some (.jstr "User 1") ∧
    call_tool_result .fnil = some (.jstr "Unexpected error occurred!") :=
  ⟨c8_call_tool_extraction.1
      (.fcons "content" (.jarr (.jcons (.jobj (.fcons "type" (.jstr "text")
        (.fcons "text" (.jstr "User 1") .fnil))) .jnil)) .fnil)
      (.jobj (.fcons "type" (.jstr "text") (.fcons "text" (.jstr "User 1") .fnil)))
      .jnil (.jstr "User 1") rfl rfl,
   c8_call_tool_extraction.2 .fnil (Or.inl rfl)⟩

end McpCore
